import Mathlib

/-!
Verification of the serial device discovery core of the Sorensen DCS power
supply GUI (`sorensen_gui`), a shallow embedding of
`sorensen_gui/port_scanner.py`, `sorensen_gui/logging_utils.py` and
`sorensen_gui/dcs_controller.py`.

The serial transport, the platform port registry, the file system and the
instrument driver are external collaborators of the embedded code; each is
modelled as injected behaviour (a `Transport` value, a list of reported
device paths, an abstract row sink, a `Driver` record of call outcomes), so
that the embedded functions are the exact control flow of the Python source
over those behaviours.
-/

namespace SorensenGui

/-- Python exception classes that can arise in the embedded code.  All four
derive from Python's `Exception`, which matters for the `except` clauses of
`probe_dcs_port` (port_scanner.py lines 84-89). -/
inductive PyExc where
  | serialException
  | osError
  | unicodeDecodeError
  | otherException
deriving DecidableEq

/-- Outcome of running a piece of Python code: a normal return value, or a
raised exception propagating out. -/
inductive PyOutcome (α : Type) where
  | normal (val : α)
  | raised (exc : PyExc)
deriving DecidableEq

/-- Whether an outcome is a propagating exception. -/
def PyOutcome.isRaised {α : Type} : PyOutcome α → Bool
  | .normal _ => false
  | .raised _ => true

/-! ### UTF-8 decoding with `errors='ignore'`

`probe_dcs_port` decodes the raw response with
`.decode(encoding='UTF-8', errors='ignore')` (port_scanner.py line 73).
Python's UTF-8 codec with the `ignore` error handler never raises: invalid
bytes (stray continuation bytes, overlong forms, surrogates, truncated
sequences) are skipped and the remaining valid sequences are decoded.  The
decoder below is modelled from that codec: it is a byte-level state machine
that validates each continuation byte against the restricted ranges of
RFC 3629 (which CPython enforces), emits the code point of each complete
valid sequence, and drops the pending partial sequence on any invalid byte,
reprocessing that byte as a potential new lead byte. -/

/-- Valid range for the `idx`-th continuation byte (1-based) of a sequence
with the given lead byte, per RFC 3629 as enforced by CPython's decoder. -/
def utf8ContOk (lead : Nat) (idx : Nat) (b : Nat) : Bool :=
  if idx = 1 && lead = 0xE0 then 0xA0 ≤ b && b ≤ 0xBF
  else if idx = 1 && lead = 0xED then 0x80 ≤ b && b ≤ 0x9F
  else if idx = 1 && lead = 0xF0 then 0x90 ≤ b && b ≤ 0xBF
  else if idx = 1 && lead = 0xF4 then 0x80 ≤ b && b ≤ 0x8F
  else 0x80 ≤ b && b ≤ 0xBF

/-- Core of the ignore-mode UTF-8 decoder.  The state is `none` between
sequences, or `some (lead, total, got, acc)` inside a multi-byte sequence
(`total` continuation bytes expected, `got` consumed so far, `acc` the code
point accumulated so far).  Produces the list of decoded code points. -/
def utf8Go : Option (Nat × Nat × Nat × Nat) → List Nat → List Nat
  | _, [] => []
  | none, b :: rest =>
    if b < 0x80 then b :: utf8Go none rest
    else if 0xC2 ≤ b && b ≤ 0xDF then utf8Go (some (b, 1, 0, b % 0x20)) rest
    else if 0xE0 ≤ b && b ≤ 0xEF then utf8Go (some (b, 2, 0, b % 0x10)) rest
    else if 0xF0 ≤ b && b ≤ 0xF4 then utf8Go (some (b, 3, 0, b % 0x08)) rest
    else utf8Go none rest
  | some (lead, total, got, acc), b :: rest =>
    if utf8ContOk lead (got + 1) b then
      if got + 1 = total then (acc * 0x40 + b % 0x40) :: utf8Go none rest
      else utf8Go (some (lead, total, got + 1, acc * 0x40 + b % 0x40)) rest
    else
      -- invalid continuation: the pending partial sequence is dropped and
      -- this byte is reprocessed as a potential lead byte (the `none` case,
      -- inlined to keep the recursion structural)
      if b < 0x80 then b :: utf8Go none rest
      else if 0xC2 ≤ b && b ≤ 0xDF then utf8Go (some (b, 1, 0, b % 0x20)) rest
      else if 0xE0 ≤ b && b ≤ 0xEF then utf8Go (some (b, 2, 0, b % 0x10)) rest
      else if 0xF0 ≤ b && b ≤ 0xF4 then utf8Go (some (b, 3, 0, b % 0x08)) rest
      else utf8Go none rest

/-- `bytes.decode(encoding='UTF-8', errors='ignore')`: decode, skipping
invalid byte sequences.  Total — the ignore handler never raises. -/
def utf8DecodeIgnore (bs : List Nat) : List Char :=
  (utf8Go none bs).map Char.ofNat

/-- Strict UTF-8 validity of a byte string (used only to state claims about
"not valid UTF-8" byte sequences; the embedded code never checks this). -/
def utf8ValidGo : Option (Nat × Nat × Nat) → List Nat → Bool
  | none, [] => true
  | some _, [] => false
  | none, b :: rest =>
    if b < 0x80 then utf8ValidGo none rest
    else if 0xC2 ≤ b && b ≤ 0xDF then utf8ValidGo (some (b, 1, 0)) rest
    else if 0xE0 ≤ b && b ≤ 0xEF then utf8ValidGo (some (b, 2, 0)) rest
    else if 0xF0 ≤ b && b ≤ 0xF4 then utf8ValidGo (some (b, 3, 0)) rest
    else false
  | some (lead, total, got), b :: rest =>
    if utf8ContOk lead (got + 1) b then
      if got + 1 = total then utf8ValidGo none rest
      else utf8ValidGo (some (lead, total, got + 1)) rest
    else false

/-- A byte string is valid UTF-8 when the strict decoder accepts it. -/
def utf8Valid (bs : List Nat) : Bool := utf8ValidGo none bs

/-! ### Python string helpers used by the scanner -/

/-- The ASCII whitespace characters removed by Python's `str.strip()`
(space, tab, newline, carriage return, vertical tab, form feed).  Unicode
whitespace beyond ASCII is not modelled; the scanner only meets ASCII. -/
def isPySpace (c : Char) : Bool :=
  c = ' ' || c = '\t' || c = '\n' || c = '\r' ||
  c = Char.ofNat 11 || c = Char.ofNat 12

/-- Python `str.strip()`: remove leading and trailing whitespace. -/
def pyStrip (s : List Char) : List Char :=
  List.rdropWhile isPySpace (s.dropWhile isPySpace)

/-- Python `str.upper()` restricted to the ASCII case mapping (the marker
substrings searched for are pure ASCII). -/
def pyUpperChar (c : Char) : Char :=
  if 'a' ≤ c && c ≤ 'z' then Char.ofNat (c.toNat - 32) else c

/-- Python `str.upper()` on a whole string. -/
def pyUpper (s : List Char) : List Char := s.map pyUpperChar

/-- Python's substring test `pat in s`. -/
def containsSub (pat : List Char) : List Char → Bool
  | [] => pat.isEmpty
  | c :: rest => pat.isPrefixOf (c :: rest) || containsSub pat rest

/-! ### The device prober `probe_dcs_port` (port_scanner.py lines 45-89)

The serial transport is the injected collaborator: a `Transport` value says
whether `ser.open()` raises, whether `ser.write(...)` raises, and what
`ser.readline()` does (raise, or return a byte string — a timeout with no
data surfaces as the empty byte string).  The probe records the transport
operations it invokes as an `Event` trace, in order. -/

/-- Injected behaviour of the serial transport for one probe call. -/
structure Transport where
  openRaises : Option PyExc
  writeRaises : Option PyExc
  readResult : PyOutcome (List Nat)
deriving DecidableEq

/-- Transport operations invoked by a probe, in order.  `wrote` and
`didRead` are recorded at the invocation of `ser.write` / `ser.readline`
(even when that invocation raises); `opened` is recorded when `ser.open()`
returns successfully; `closed` when `ser.close()` is invoked. -/
inductive Event where
  | opened
  | wrote (data : List Nat)
  | didRead
  | closed
deriving DecidableEq

/-- The bytes of `"*IDN?\r".encode()` (port_scanner.py lines 69-70); the
command is pure ASCII, so its UTF-8 encoding is its code points. -/
def idnCommandBytes : List Nat := "*IDN?\r".data.map Char.toNat

/-- The marker substrings of port_scanner.py line 79. -/
def sorensenMarker : List Char := "SORENSEN".data

/-- See `sorensenMarker`. -/
def dcsMarker : List Char := "DCS".data

/-- The classification test of port_scanner.py line 79:
`if response and ('SORENSEN' in response.upper() or 'DCS' in response.upper())`.
Python truthiness of a string is non-emptiness. -/
def looksLikeDCS (response : List Char) : Bool :=
  !response.isEmpty &&
    (containsSub sorensenMarker (pyUpper response) ||
     containsSub dcsMarker (pyUpper response))

/-- The body of `probe_dcs_port`'s `try` block (port_scanner.py lines
57-82), before exception handling: open, write `*IDN?\r`, read one line,
decode ignoring invalid bytes, strip, close, classify.  Returns the Python
outcome (normal value or raised exception) together with the trace of
transport operations invoked. -/
def probe_try_body (t : Transport) : PyOutcome (Option (List Char)) × List Event :=
  match t.openRaises with
  | some e => (.raised e, [])
  | none =>
    match t.writeRaises with
    | some e => (.raised e, [.opened, .wrote idnCommandBytes])
    | none =>
      match t.readResult with
      | .raised e => (.raised e, [.opened, .wrote idnCommandBytes, .didRead])
      | .normal bs =>
        let response := pyStrip (utf8DecodeIgnore bs)
        if looksLikeDCS response then
          (.normal (some response),
           [.opened, .wrote idnCommandBytes, .didRead, .closed])
        else
          (.normal none, [.opened, .wrote idnCommandBytes, .didRead, .closed])

/-- The first `except` clause (line 84) catches
`(serial.SerialException, OSError, UnicodeDecodeError)`. -/
def caughtBySpecificClause : PyExc → Bool
  | .serialException => true
  | .osError => true
  | .unicodeDecodeError => true
  | .otherException => false

/-- The second `except` clause (line 87) catches `Exception`; every
modelled exception class derives from `Exception`. -/
def caughtByGeneralClause : PyExc → Bool := fun _ => true

/-- `probe_dcs_port` (port_scanner.py lines 45-89): the `try` body wrapped
in the two `except` clauses, each of which returns `None`.  An exception
caught by neither clause would propagate (`raised`). -/
def probe_dcs_port (t : Transport) : PyOutcome (Option (List Char)) × List Event :=
  match probe_try_body t with
  | (.normal r, tr) => (.normal r, tr)
  | (.raised e, tr) =>
    if caughtBySpecificClause e then (.normal none, tr)
    else if caughtByGeneralClause e then (.normal none, tr)
    else (.raised e, tr)

/-- The `wrote` payloads of a trace: what was sent to the transport. -/
def writesIn (tr : List Event) : List (List Nat) :=
  tr.filterMap (fun ev =>
    match ev with
    | .wrote d => some d
    | _ => none)

/-- Number of `readline` invocations in a trace. -/
def readCountIn (tr : List Event) : Nat :=
  (tr.filter (fun ev => ev = Event.didRead)).length

/-! ### The scan orchestrator `scan_for_dcs_devices` (port_scanner.py lines 92-110)

The enumerator result and the prober are the injected collaborators: the
function receives the `likely_ports` list (the value of
`get_likely_ports()` at line 102) and the prober (the behaviour of
`probe_dcs_port(port, baudrate)` at line 106) as parameters.  Alongside the
accumulated `found_devices` it returns the list of ports on which the
prober was invoked, in invocation order. -/

/-- The `for port in likely_ports` loop of lines 105-108, with the
accumulated `found_devices` and the prober-invocation trace.  Line 107
tests `if identification:` — Python truthiness, so a `None` result and an
empty-string result are both discarded. -/
def scanLoop (probe : String → Option (List Char)) :
    List String → List (String × List Char) → List String →
    List (String × List Char) × List String
  | [], found_devices, probed => (found_devices, probed)
  | port :: rest, found_devices, probed =>
    match probe port with
    | some idn =>
      if idn.isEmpty then scanLoop probe rest found_devices (probed ++ [port])
      else scanLoop probe rest (found_devices ++ [(port, idn)]) (probed ++ [port])
    | none => scanLoop probe rest found_devices (probed ++ [port])

/-- `scan_for_dcs_devices` over an injected candidate list and prober.
First component: the returned `found_devices`; second: the ports probed,
in order. -/
def scan_for_dcs_devices (likely_ports : List String)
    (probe : String → Option (List Char)) :
    List (String × List Char) × List String :=
  scanLoop probe likely_ports [] []

/-! ### The port enumerator `get_likely_ports` (port_scanner.py lines 9-42)

The platform registry is the injected collaborator: the function receives
the OS name (`platform.system()`, line 16) and the device paths of
`list_ports.comports()` (line 17) as parameters. -/

/-- `get_likely_ports`: filter the reported device paths by the
platform-specific conventions of lines 19-42.  Windows and Linux use
`str.startswith`; macOS (`Darwin`) uses substring containment (`in`);
any other OS returns every reported path. -/
def get_likely_ports (system : String) (all_ports : List String) : List String :=
  if system = "Windows" then
    all_ports.filter (fun d => "COM".data.isPrefixOf d.data)
  else if system = "Linux" then
    all_ports.filter (fun d =>
      "/dev/ttyUSB".data.isPrefixOf d.data ||
      "/dev/ttyACM".data.isPrefixOf d.data ||
      "/dev/ttyS".data.isPrefixOf d.data)
  else if system = "Darwin" then
    all_ports.filter (fun d =>
      containsSub "/dev/tty.usbserial".data d.data ||
      containsSub "/dev/cu.usbserial".data d.data ||
      containsSub "/dev/tty.usbmodem".data d.data ||
      containsSub "/dev/cu.usbmodem".data d.data)
  else
    all_ports

/-! ### The CSV logger (logging_utils.py lines 9-84)

The file system is the injected collaborator.  A logger state keeps the
rows handed to the `csv.writer` but not yet flushed (`buffered`) and the
rows known to have reached the file (`flushed`); `file.flush()` moves
everything buffered to `flushed`, so `flushed` is what a read-back of the
file observes after the flush.  Timestamps come from the wall clock
(`datetime.now().isoformat()`, line 61), injected as a parameter.
Filesystem failures are not modelled: `CSVLogger_open` embeds the
successful branch of `open` (lines 37-41).  Measurement values are
modelled as exact rationals; the IEEE-float representation of the Python
arguments is irrelevant to the row structure and digit-shape facts proved
here. -/

/-- State of a `CSVLogger`: whether `self.writer` is set, and the rows
written / flushed so far. -/
structure CSVLoggerState where
  writerReady : Bool
  buffered : List (List String)
  flushed : List (List String)
deriving DecidableEq

/-- The header row of logging_utils.py line 40. -/
def csvHeader : List String := ["Timestamp", "Voltage (V)", "Current (A)"]

/-- `CSVLogger.__init__`: `self.file = None`, `self.writer = None`. -/
def CSVLogger_new : CSVLoggerState := ⟨false, [], []⟩

/-- `CSVLogger.open` (lines 30-44), successful branch: truncate the file
(mode `'w'`), create the writer, write the header row, return `True`. -/
def CSVLogger_open (_s : CSVLoggerState) : CSVLoggerState × Bool :=
  (⟨true, [csvHeader], []⟩, true)

/-- Round-half-even of a rational, the rounding Python's `format(x, '.3f')`
applies to the (here exact) value being rendered. -/
def roundHalfEven (q : ℚ) : ℤ :=
  if q - ⌊q⌋ < 1/2 then ⌊q⌋
  else if q - ⌊q⌋ > 1/2 then ⌊q⌋ + 1
  else if ⌊q⌋ % 2 = 0 then ⌊q⌋ else ⌊q⌋ + 1

/-- Decimal digits of a natural number, most significant first. -/
def natDigits (n : Nat) : List Char :=
  if n < 10 then [Nat.digitChar n]
  else natDigits (n / 10) ++ [Nat.digitChar (n % 10)]
termination_by n
decreasing_by exact Nat.div_lt_self (by omega) (by omega)

/-- Python `f"{x:.3f}"` on an exact rational value: round to an integer
number of thousandths, then render sign, integer part, `'.'` and exactly
three fractional digits.  (The sign of a negative value rounding to zero
is not modelled.) -/
def fmt3 (q : ℚ) : List Char :=
  let m := roundHalfEven (q * 1000)
  let sign : List Char := if m < 0 then ['-'] else []
  let a := m.natAbs
  sign ++ natDigits (a / 1000) ++
    ['.', Nat.digitChar (a / 100 % 10), Nat.digitChar (a / 10 % 10),
     Nat.digitChar (a % 10)]

/-- `CSVLogger.log_measurement` (lines 46-67): `False` when `self.writer`
is `None`; otherwise write the row
`[timestamp, f"{voltage:.3f}", f"{current:.3f}"]` and flush. -/
def CSVLogger_log (s : CSVLoggerState) (timestamp : String)
    (voltage current : ℚ) : CSVLoggerState × Bool :=
  if s.writerReady = false then (s, false)
  else
    (⟨true, [],
      s.flushed ++ s.buffered ++
        [[timestamp, String.mk (fmt3 voltage), String.mk (fmt3 current)]]⟩,
     true)

/-! ### The instrument controller `DCSController` (dcs_controller.py)

The `sorensenPower` driver is the injected collaborator: a `Driver` record
gives the outcome (normal value or raised exception) of each driver call.
Readings are modelled as exact rationals — only the control flow is at
stake.  Each controller operation returns its Python result together with
the number of driver calls it performed. -/

/-- Injected behaviour of a `sorensenPower` driver object. -/
structure Driver where
  getOutputVoltage : PyOutcome ℚ
  getOutputCurrent : PyOutcome ℚ
  setOutputVoltage : ℚ → PyOutcome Bool
  setOutputCurrent : ℚ → PyOutcome Bool
  getModel : PyOutcome String
  getSerialNumber : PyOutcome String
  getMaxVoltage : PyOutcome ℚ
  getMaxCurrent : PyOutcome ℚ

/-- The mutable fields of a `DCSController` that the verified operations
touch: `self.power_supply` and `self._connected` (lines 25-26; the static
`port`/`baudrate` fields never influence the verified control flow). -/
structure DCSController where
  power_supply : Option Driver
  connectedFlag : Bool

/-- `DCSController.is_connected` (lines 59-66):
`self._connected and self.power_supply is not None`. -/
def is_connected (c : DCSController) : Bool :=
  c.connectedFlag && c.power_supply.isSome

/-- `DCSController.connect` (lines 28-46).  The outcome of the
`sorensenPower(...)` constructor call is injected; when it raises, the
assignment to `self.power_supply` never happens and `self._connected` is
set to `False`. -/
def connect (c : DCSController) (ctorResult : PyOutcome Driver) :
    DCSController × Bool :=
  match ctorResult with
  | .normal d => (⟨some d, true⟩, true)
  | .raised _ => (⟨c.power_supply, false⟩, false)

/-- `DCSController.get_measurements` (lines 68-84): guard on
`is_connected`, then `getOutputVoltage` followed by `getOutputCurrent`,
any raise caught and turned into `None`. -/
def get_measurements (c : DCSController) : Option (ℚ × ℚ) × Nat :=
  if !is_connected c then (none, 0)
  else
    match c.power_supply with
    | none => (none, 0)
    | some d =>
      match d.getOutputVoltage with
      | .raised _ => (none, 1)
      | .normal v =>
        match d.getOutputCurrent with
        | .raised _ => (none, 2)
        | .normal i => (some (v, i), 2)

/-- `DCSController.set_voltage` (lines 86-103). -/
def set_voltage (c : DCSController) (v : ℚ) : Bool × Nat :=
  if !is_connected c then (false, 0)
  else
    match c.power_supply with
    | none => (false, 0)
    | some d =>
      match d.setOutputVoltage v with
      | .raised _ => (false, 1)
      | .normal b => (b, 1)

/-- `DCSController.set_current` (lines 105-122). -/
def set_current (c : DCSController) (i : ℚ) : Bool × Nat :=
  if !is_connected c then (false, 0)
  else
    match c.power_supply with
    | none => (false, 0)
    | some d =>
      match d.setOutputCurrent i with
      | .raised _ => (false, 1)
      | .normal b => (b, 1)

/-- `DCSController.get_model` (lines 124-138). -/
def get_model (c : DCSController) : Option String × Nat :=
  if !is_connected c then (none, 0)
  else
    match c.power_supply with
    | none => (none, 0)
    | some d =>
      match d.getModel with
      | .raised _ => (none, 1)
      | .normal m => (some m, 1)

/-- `DCSController.get_serial_number` (lines 140-154). -/
def get_serial_number (c : DCSController) : Option String × Nat :=
  if !is_connected c then (none, 0)
  else
    match c.power_supply with
    | none => (none, 0)
    | some d =>
      match d.getSerialNumber with
      | .raised _ => (none, 1)
      | .normal m => (some m, 1)

/-- `DCSController.get_max_voltage` (lines 156-170). -/
def get_max_voltage (c : DCSController) : Option ℚ × Nat :=
  if !is_connected c then (none, 0)
  else
    match c.power_supply with
    | none => (none, 0)
    | some d =>
      match d.getMaxVoltage with
      | .raised _ => (none, 1)
      | .normal m => (some m, 1)

/-- `DCSController.get_max_current` (lines 172-186). -/
def get_max_current (c : DCSController) : Option ℚ × Nat :=
  if !is_connected c then (none, 0)
  else
    match c.power_supply with
    | none => (none, 0)
    | some d =>
      match d.getMaxCurrent with
      | .raised _ => (none, 1)
      | .normal m => (some m, 1)

/-- A driver every one of whose calls raises the given exception. -/
def raisingDriver (e : PyExc) : Driver :=
  ⟨.raised e, .raised e, fun _ => .raised e, fun _ => .raised e,
   .raised e, .raised e, .raised e, .raised e⟩

/-! ### Concrete data appearing in the claims -/

/-- The raw bytes of the canonical identification line, with its trailing
newline, as `ser.readline()` would return them. -/
def idnResponseBytes : List Nat :=
  "SORENSEN,DCS60-18E,123456,1.0\n".data.map Char.toNat

/-- The newline-stripped identification string. -/
def idnResponseChars : List Char := "SORENSEN,DCS60-18E,123456,1.0".data

/-- A prober behaviour under which only port "B" responds. -/
def probeOnlyB (p : String) : Option (List Char) :=
  if p = "B" then some idnResponseChars else none

/-- A read result that is not valid UTF-8 (stray 0xFF lead byte) but whose
remaining bytes spell a marker-bearing identification. -/
def c4InvalidBytes : List Nat := 0xFF :: "DCS60-18E\n".data.map Char.toNat

/-- Another invalid-UTF8 read: a stray 0xFE byte in front of the canonical
identification line. -/
def c2InvalidBytes : List Nat := 0xFE :: idnResponseBytes

/-! ### Support lemmas -/

/-- A nonempty prefix has the same head as the longer list. -/
theorem head?_of_pre {α : Type} {l₁ l₂ : List α} (h : l₁ <+: l₂)
    (hne : l₁ ≠ []) : l₂.head? = l₁.head? := by
  obtain ⟨t, rfl⟩ := h
  cases l₁ with
  | nil => exact absurd rfl hne
  | cons a l => rfl

/-- The head surviving a `dropWhile` fails the predicate. -/
theorem head?_dropWhile_false {α : Type} {p : α → Bool} (l : List α) :
    ∀ c, (l.dropWhile p).head? = some c → p c = false := by
  induction l with
  | nil => intro c hc; cases hc
  | cons a t ih =>
    intro c hc
    rw [List.dropWhile_cons] at hc
    by_cases hp : p a
    · exact ih c (by simpa [hp] using hc)
    · simp only [hp, if_false] at hc
      cases hc
      simpa using hp

/-- A list whose head fails the predicate is untouched by `dropWhile`. -/
theorem dropWhile_eq_self_of_head {α : Type} {p : α → Bool} {s : List α}
    (h : ∀ c, s.head? = some c → p c = false) : s.dropWhile p = s := by
  cases s with
  | nil => rfl
  | cons a t => simp [List.dropWhile_cons, h a rfl]

/-- A list whose last element fails the predicate is untouched by
`rdropWhile`. -/
theorem rdropWhile_eq_self_of_last {α : Type} {p : α → Bool} {s : List α}
    (h : ∀ c, s.getLast? = some c → p c = false) : List.rdropWhile p s = s := by
  unfold List.rdropWhile
  rw [dropWhile_eq_self_of_head, List.reverse_reverse]
  intro c hc
  exact h c (by rwa [List.head?_reverse] at hc)

/-- The head of a stripped string is not whitespace. -/
theorem pyStrip_head_not_space (l : List Char) :
    ∀ c, (pyStrip l).head? = some c → isPySpace c = false := by
  intro c hc
  have hne : pyStrip l ≠ [] := by intro h; rw [h] at hc; cases hc
  have hpre : pyStrip l <+: l.dropWhile isPySpace :=
    List.rdropWhile_prefix isPySpace (l.dropWhile isPySpace)
  exact head?_dropWhile_false l c ((head?_of_pre hpre hne).trans hc)

/-- The last character of a stripped string is not whitespace. -/
theorem pyStrip_last_not_space (l : List Char) :
    ∀ c, (pyStrip l).getLast? = some c → isPySpace c = false := by
  intro c hc
  unfold pyStrip List.rdropWhile at hc
  rw [List.getLast?_reverse] at hc
  exact head?_dropWhile_false _ c hc

/-- Stripping is idempotent: a stripped string has no leading or trailing
whitespace left to remove. -/
theorem pyStrip_idem (l : List Char) : pyStrip (pyStrip l) = pyStrip l := by
  show List.rdropWhile isPySpace ((pyStrip l).dropWhile isPySpace) = pyStrip l
  rw [dropWhile_eq_self_of_head (pyStrip_head_not_space l),
    rdropWhile_eq_self_of_last (pyStrip_last_not_space l)]

/-- Action of the scan loop on arbitrary accumulators. -/
theorem scanLoop_spec (probe : String → Option (List Char)) (l : List String) :
    ∀ found probed, scanLoop probe l found probed =
      (found ++ l.filterMap (fun p =>
        match probe p with
        | some i => if i.isEmpty then none else some (p, i)
        | none => none),
       probed ++ l) := by
  induction l with
  | nil => intro found probed; simp [scanLoop]
  | cons hd tl ih =>
    intro found probed
    cases h : probe hd with
    | none => simp [scanLoop, h, ih, List.filterMap_cons]
    | some i =>
      by_cases hi : i = []
      · simp [scanLoop, h, hi, ih, List.filterMap_cons]
      · simp [scanLoop, h, hi, ih, List.filterMap_cons]

/-! ### The claims -/

/-- C1: when the transport opens and writes normally and the read yields
exactly the line "SORENSEN,DCS60-18E,123456,1.0" with a trailing newline,
`probe_dcs_port` returns the newline-stripped identification string; when
the read yields an empty byte string, it returns `None` (NotFound). -/
theorem C1_probe_idn_line_found_empty_notfound :
    (probe_dcs_port ⟨none, none, .normal idnResponseBytes⟩).fst
      = .normal (some idnResponseChars)
    ∧ (probe_dcs_port ⟨none, none, .normal []⟩).fst = .normal none := by
  constructor <;> decide

/-- C3 (code-bug evidence): on a probe call whose transport opens normally
but whose `ser.write` raises, `probe_dcs_port` returns `None` without ever
invoking `ser.close()`; likewise when `ser.readline()` raises.  `close` is
invoked only on the path where open, write and read all succeed. -/
theorem C3_transport_not_closed_on_write_or_read_error :
    ((probe_dcs_port ⟨none, some .serialException, .normal []⟩).fst = .normal none
      ∧ Event.opened ∈ (probe_dcs_port ⟨none, some .serialException, .normal []⟩).snd
      ∧ Event.closed ∉ (probe_dcs_port ⟨none, some .serialException, .normal []⟩).snd)
    ∧ ((probe_dcs_port ⟨none, none, .raised .serialException⟩).fst = .normal none
      ∧ Event.opened ∈ (probe_dcs_port ⟨none, none, .raised .serialException⟩).snd
      ∧ Event.closed ∉ (probe_dcs_port ⟨none, none, .raised .serialException⟩).snd)
    ∧ Event.closed ∈ (probe_dcs_port ⟨none, none, .normal []⟩).snd := by
  decide

/-- C4 counterexample: a read that is not valid UTF-8 (a stray 0xFF byte
before a marker-bearing text) is classified Found, not NotFound — the
ignore-mode decode drops the invalid byte instead of failing. -/
theorem C4_counterexample_invalid_utf8_found :
    utf8Valid c4InvalidBytes = false
    ∧ (probe_dcs_port ⟨none, none, .normal c4InvalidBytes⟩).fst
        = .normal (some "DCS60-18E".data) := by
  constructor <;> decide

/-- C4 amended: a probe call whose read yields a byte sequence that is not
valid UTF-8 never raises and never surfaces a distinct malformed-response
outcome: the invalid bytes are dropped by the ignore-mode decode, and the
call returns NotFound exactly when the decoded, stripped text is empty or
lacks both device markers. -/
theorem C4_invalid_utf8_collapses (bs : List Nat)
    (_hbs : utf8Valid bs = false) :
    (∃ r, (probe_dcs_port ⟨none, none, .normal bs⟩).fst = .normal r)
    ∧ ((probe_dcs_port ⟨none, none, .normal bs⟩).fst = .normal none
        ↔ looksLikeDCS (pyStrip (utf8DecodeIgnore bs)) = false) := by
  by_cases h : looksLikeDCS (pyStrip (utf8DecodeIgnore bs))
  · exact ⟨⟨some (pyStrip (utf8DecodeIgnore bs)),
      by simp [probe_dcs_port, probe_try_body, h]⟩,
      by simp [probe_dcs_port, probe_try_body, h]⟩
  · exact ⟨⟨none, by simp [probe_dcs_port, probe_try_body, h]⟩,
      by simp [probe_dcs_port, probe_try_body, h]⟩

/-- C4 witness: the amended theorem at the concrete read `[0xFF]`, an
invalid byte sequence that decodes to the empty text and is NotFound. -/
theorem C4_invalid_utf8_collapses_witness :
    (probe_dcs_port ⟨none, none, .normal [255]⟩).fst = .normal none :=
  (C4_invalid_utf8_collapses [255] (by decide)).2.mpr (by decide)

/-- C2 counterexample: "every failure is returned as NotFound" fails for
the non-UTF8-response failure kind the claim lists: a read of the invalid
byte sequence 0xFE + "SORENSEN,DCS60-18E,123456,1.0\n" is not returned as
NotFound — the ignore-mode decode drops the invalid byte and the probe
returns Found with the surviving identification. -/
theorem C2_counterexample_invalid_utf8_read_is_found :
    utf8Valid c2InvalidBytes = false
    ∧ (probe_dcs_port ⟨none, none, .normal c2InvalidBytes⟩).fst
        = .normal (some idnResponseChars)
    ∧ (probe_dcs_port ⟨none, none, .normal c2InvalidBytes⟩).fst
        ≠ .normal none := by
  refine ⟨?_, ?_, ?_⟩ <;> decide

/-- C2 amended: for every injected transport behaviour, `probe_dcs_port`
never lets an exception propagate to its caller: whatever the `try` body
raises is caught, and each injected transport failure — open failure,
write failure, a raising read, or a timeout read of zero bytes — surfaces
as the NotFound result `None`.  Non-UTF8 bytes in the response never raise
either: any successfully read byte sequence is decoded with its invalid
bytes ignored and the probe returns the classification of the remaining
text (which may be Found when a device marker survives). -/
theorem C2_probe_never_propagates (t : Transport) :
    (∃ r, (probe_dcs_port t).fst = .normal r)
    ∧ ((probe_try_body t).fst.isRaised = true →
        (probe_dcs_port t).fst = .normal none)
    ∧ (∀ e, t.openRaises = some e → (probe_dcs_port t).fst = .normal none)
    ∧ (∀ e, t.openRaises = none → t.writeRaises = some e →
        (probe_dcs_port t).fst = .normal none)
    ∧ (∀ e, t.openRaises = none → t.writeRaises = none →
        t.readResult = .raised e → (probe_dcs_port t).fst = .normal none)
    ∧ (t.openRaises = none → t.writeRaises = none →
        t.readResult = .normal [] → (probe_dcs_port t).fst = .normal none)
    ∧ (∀ bs, t.openRaises = none → t.writeRaises = none →
        t.readResult = .normal bs →
        (probe_dcs_port t).fst
          = .normal (if looksLikeDCS (pyStrip (utf8DecodeIgnore bs))
              then some (pyStrip (utf8DecodeIgnore bs)) else none)) := by
  obtain ⟨o, w, r⟩ := t
  cases o with
  | some e =>
    cases e <;>
      simp [probe_dcs_port, probe_try_body, caughtBySpecificClause,
        caughtByGeneralClause, PyOutcome.isRaised]
  | none =>
    cases w with
    | some e =>
      cases e <;>
        simp [probe_dcs_port, probe_try_body, caughtBySpecificClause,
          caughtByGeneralClause, PyOutcome.isRaised]
    | none =>
      cases r with
      | raised e =>
        cases e <;>
          simp [probe_dcs_port, probe_try_body, caughtBySpecificClause,
            caughtByGeneralClause, PyOutcome.isRaised]
      | normal bs =>
        by_cases h : looksLikeDCS (pyStrip (utf8DecodeIgnore bs))
        · refine ⟨⟨some (pyStrip (utf8DecodeIgnore bs)),
            by simp [probe_dcs_port, probe_try_body, h]⟩,
            by simp [probe_try_body, PyOutcome.isRaised, h],
            by simp, by simp, by simp, ?_, ?_⟩
          · intro _ _ hbs
            cases hbs
            exact absurd h (by decide)
          · rintro bs' _ _ hbs'
            cases hbs'
            simp [probe_dcs_port, probe_try_body, h]
        · refine ⟨⟨none, by simp [probe_dcs_port, probe_try_body, h]⟩,
            by simp [probe_try_body, PyOutcome.isRaised, h],
            by simp, by simp, by simp,
            fun _ _ _ => by simp [probe_dcs_port, probe_try_body, h], ?_⟩
          rintro bs' _ _ hbs'
          cases hbs'
          simp [probe_dcs_port, probe_try_body, h]

/-- C2 witness: the theorem applied at a concrete transport for each
injected behaviour kind, including a non-UTF8 read. -/
theorem C2_probe_never_propagates_witness :
    (probe_dcs_port ⟨some .serialException, none, .normal []⟩).fst = .normal none
    ∧ (probe_dcs_port ⟨none, some .osError, .normal []⟩).fst = .normal none
    ∧ (probe_dcs_port ⟨none, none, .raised .otherException⟩).fst = .normal none
    ∧ (probe_dcs_port ⟨none, none, .normal []⟩).fst = .normal none
    ∧ (probe_dcs_port ⟨none, none, .normal c2InvalidBytes⟩).fst
        = .normal (some idnResponseChars) :=
  ⟨(C2_probe_never_propagates _).2.2.1 .serialException rfl,
   (C2_probe_never_propagates _).2.2.2.1 .osError rfl rfl,
   (C2_probe_never_propagates _).2.2.2.2.1 .otherException rfl rfl rfl,
   (C2_probe_never_propagates _).2.2.2.2.2.1 rfl rfl rfl,
   by
     have h := (C2_probe_never_propagates
       ⟨none, none, .normal c2InvalidBytes⟩).2.2.2.2.2.2 c2InvalidBytes
       rfl rfl rfl
     rw [h]
     decide⟩

/-- C5: the scan probes each enumerated candidate exactly once, in
enumeration order, and returns exactly the Found pairs in probe order,
silently discarding NotFound results; over candidates A, B, C with only B
responding it returns exactly the B pair after three prober invocations,
and over an empty candidate list it returns nothing and never invokes the
prober. -/
theorem C5_scan_order_and_aggregation (probe : String → Option (List Char))
    (ports : List String) (hne : ∀ p, probe p ≠ some []) :
    (scan_for_dcs_devices ports probe).snd = ports
    ∧ (scan_for_dcs_devices ports probe).fst
        = ports.filterMap (fun p => (probe p).map (fun i => (p, i)))
    ∧ scan_for_dcs_devices [] probe = ([], [])
    ∧ (scan_for_dcs_devices ["A", "B", "C"] probeOnlyB).fst
        = [("B", idnResponseChars)]
    ∧ (scan_for_dcs_devices ["A", "B", "C"] probeOnlyB).snd
        = ["A", "B", "C"] := by
  have hspec := scanLoop_spec probe ports [] []
  refine ⟨?_, ?_, rfl, by decide, by decide⟩
  · unfold scan_for_dcs_devices
    rw [hspec]
    simp
  · unfold scan_for_dcs_devices
    rw [hspec]
    simp only [List.nil_append]
    apply List.filterMap_congr
    intro p _
    cases h : probe p with
    | none => rfl
    | some i =>
      have : i ≠ [] := fun hi => hne p (hi ▸ h)
      simp [this]

/-- C5 witness: the theorem at the concrete A/B/C scenario. -/
theorem C5_scan_order_and_aggregation_witness :
    (scan_for_dcs_devices ["A", "B", "C"] probeOnlyB).fst
      = [("B", idnResponseChars)] :=
  (C5_scan_order_and_aggregation probeOnlyB ["A", "B", "C"]
    (fun p h => by
      unfold probeOnlyB at h
      split at h
      · exact absurd (Option.some.inj h) (by decide)
      · exact Option.noConfusion h)).2.2.2.1

/-- C6 counterexample: on a probe call whose `ser.open()` raises, the
command is never written at all, so "every call writes the command exactly
once" fails. -/
theorem C6_counterexample_no_write_on_open_failure :
    writesIn (probe_dcs_port ⟨some .serialException, none, .normal []⟩).snd = []
    ∧ (writesIn
        (probe_dcs_port ⟨some .serialException, none, .normal []⟩).snd).length
       ≠ 1 := by
  constructor <;> decide

/-- C6 amended: a probe call writes the command at most once — exactly
once, with the fixed payload "*IDN?\r", whenever the open succeeds — and
invokes the line read at most once — exactly once whenever open and write
both succeed; it never retries and never sends the command a second time
within one probe call. -/
theorem C6_single_send_single_read (t : Transport) :
    (writesIn (probe_dcs_port t).snd).length ≤ 1
    ∧ (∀ d, d ∈ writesIn (probe_dcs_port t).snd → d = idnCommandBytes)
    ∧ readCountIn (probe_dcs_port t).snd ≤ 1
    ∧ (t.openRaises = none →
        writesIn (probe_dcs_port t).snd = [idnCommandBytes])
    ∧ (t.openRaises = none → t.writeRaises = none →
        readCountIn (probe_dcs_port t).snd = 1) := by
  obtain ⟨o, w, r⟩ := t
  cases o with
  | some e =>
    cases e <;>
      simp [probe_dcs_port, probe_try_body, caughtBySpecificClause,
        caughtByGeneralClause, writesIn, readCountIn]
  | none =>
    cases w with
    | some e =>
      cases e <;>
        simp [probe_dcs_port, probe_try_body, caughtBySpecificClause,
          caughtByGeneralClause, writesIn, readCountIn]
    | none =>
      cases r with
      | raised e =>
        cases e <;>
          simp [probe_dcs_port, probe_try_body, caughtBySpecificClause,
            caughtByGeneralClause, writesIn, readCountIn]
      | normal bs =>
        by_cases h : looksLikeDCS (pyStrip (utf8DecodeIgnore bs)) <;>
          simp [probe_dcs_port, probe_try_body, h, writesIn, readCountIn]

/-- C6 witness: the amended theorem at a transport whose open and write
succeed. -/
theorem C6_single_send_single_read_witness :
    writesIn (probe_dcs_port ⟨none, none, .normal []⟩).snd = [idnCommandBytes]
    ∧ readCountIn (probe_dcs_port ⟨none, none, .normal []⟩).snd = 1 :=
  ⟨(C6_single_send_single_read ⟨none, none, .normal []⟩).2.2.2.1 rfl,
   (C6_single_send_single_read ⟨none, none, .normal []⟩).2.2.2.2 rfl rfl⟩

/-- C7 counterexample: `get_likely_ports` does not deduplicate — when the
platform reports the same device path twice, the output contains it
twice. -/
theorem C7_counterexample_duplicate_passes_filter :
    get_likely_ports "Windows" ["COM3", "COM3"] = ["COM3", "COM3"]
    ∧ ¬(get_likely_ports "Windows" ["COM3", "COM3"]).Nodup := by
  constructor <;> decide

/-- C7 amended: `get_likely_ports` never introduces a duplicate: its
output is a sublist of the reported device paths, so whenever the platform
reports pairwise-distinct paths (the normal situation) the output contains
no duplicate port candidate. -/
theorem C7_enumeration_no_introduced_duplicates (system : String)
    (ports : List String) :
    (get_likely_ports system ports).Sublist ports
    ∧ (ports.Nodup → (get_likely_ports system ports).Nodup) := by
  have hsub : (get_likely_ports system ports).Sublist ports := by
    unfold get_likely_ports
    split_ifs <;> first | exact List.filter_sublist _ | exact List.Sublist.refl _
  exact ⟨hsub, fun hnd => hsub.nodup hnd⟩

/-- C7 witness: the amended theorem at a duplicate-free Windows report. -/
theorem C7_enumeration_no_introduced_duplicates_witness :
    (get_likely_ports "Windows" ["COM1", "COM3"]).Nodup :=
  (C7_enumeration_no_introduced_duplicates "Windows" ["COM1", "COM3"]).2
    (by decide)

/-- A rendered number has exactly three decimal places: a final `'.'`
followed by exactly three characters, none of which is another `'.'`. -/
def hasThreeDecimals (s : List Char) : Prop :=
  ∃ pre post, s = pre ++ '.' :: post ∧ post.length = 3
    ∧ '.' ∉ post ∧ '.' ∉ pre

/-- A decimal digit character is never a dot. -/
theorem digitChar_lt10_ne_dot (k : Nat) (hk : k < 10) :
    Nat.digitChar k ≠ '.' := by
  interval_cases k <;> decide

/-- The decimal rendering of a natural number contains no dot. -/
theorem natDigits_no_dot (n : Nat) : '.' ∉ natDigits n := by
  induction n using Nat.strong_induction_on with
  | _ n ih =>
    rw [natDigits]
    by_cases h : n < 10
    · simp only [h, if_true, List.mem_singleton]
      exact fun hc => digitChar_lt10_ne_dot n h hc.symm
    · simp only [h, if_false, List.mem_append, List.mem_singleton]
      rintro (hc | hc)
      · exact ih (n / 10) (Nat.div_lt_self (by omega) (by omega)) hc
      · exact digitChar_lt10_ne_dot (n % 10) (Nat.mod_lt _ (by omega)) hc.symm

/-- `fmt3` always renders exactly three decimal places. -/
theorem fmt3_hasThreeDecimals (q : ℚ) : hasThreeDecimals (fmt3 q) := by
  refine ⟨(if roundHalfEven (q * 1000) < 0 then ['-'] else []) ++
      natDigits ((roundHalfEven (q * 1000)).natAbs / 1000),
    [Nat.digitChar ((roundHalfEven (q * 1000)).natAbs / 100 % 10),
     Nat.digitChar ((roundHalfEven (q * 1000)).natAbs / 10 % 10),
     Nat.digitChar ((roundHalfEven (q * 1000)).natAbs % 10)],
    ?_, rfl, ?_, ?_⟩
  · unfold fmt3
    simp [List.append_assoc]
  · simp only [List.mem_cons, List.not_mem_nil, or_false]
    push_neg
    refine ⟨?_, ?_, ?_⟩ <;>
      exact fun hc =>
        digitChar_lt10_ne_dot _ (Nat.mod_lt _ (by omega)) hc.symm
  · simp only [List.mem_append]
    rintro (hc | hc)
    · by_cases hm : roundHalfEven (q * 1000) < 0
      · simp [hm] at hc
      · simp [hm] at hc
    · exact natDigits_no_dot _ hc

/-- C8: opening a `CSVLogger` writes exactly the one header row
`Timestamp, Voltage (V), Current (A)`; each `log_measurement` succeeds,
appends exactly one row whose voltage and current are rendered with
exactly three decimal places, and flushes; after two measurements the
flushed file holds exactly three rows — the header and the two data
rows. -/
theorem C8_csv_two_measurement_roundtrip (ts1 ts2 : String)
    (v1 i1 v2 i2 : ℚ) :
    (CSVLogger_open CSVLogger_new).fst.buffered = [csvHeader]
    ∧ (CSVLogger_open CSVLogger_new).snd = true
    ∧ (CSVLogger_log (CSVLogger_open CSVLogger_new).fst ts1 v1 i1).snd = true
    ∧ (CSVLogger_log
        (CSVLogger_log (CSVLogger_open CSVLogger_new).fst ts1 v1 i1).fst
        ts2 v2 i2).snd = true
    ∧ (CSVLogger_log
        (CSVLogger_log (CSVLogger_open CSVLogger_new).fst ts1 v1 i1).fst
        ts2 v2 i2).fst.flushed
        = [csvHeader,
           [ts1, String.mk (fmt3 v1), String.mk (fmt3 i1)],
           [ts2, String.mk (fmt3 v2), String.mk (fmt3 i2)]]
    ∧ ((CSVLogger_log
        (CSVLogger_log (CSVLogger_open CSVLogger_new).fst ts1 v1 i1).fst
        ts2 v2 i2).fst.flushed).length = 3
    ∧ hasThreeDecimals (fmt3 v1) ∧ hasThreeDecimals (fmt3 i1) := by
  refine ⟨rfl, rfl, ?_, ?_, ?_, ?_, fmt3_hasThreeDecimals v1,
    fmt3_hasThreeDecimals i1⟩ <;>
    simp [CSVLogger_open, CSVLogger_new, CSVLogger_log, csvHeader]

/-- C9: whenever `probe_dcs_port` returns a Found identification string,
that string is non-empty, carries no leading or trailing whitespace or
line terminators (stripping it again changes nothing, and its first and
last characters are not whitespace), and its upper-cased form contains the
substring SORENSEN or the substring DCS; conversely a successful read
whose decoded, stripped text is non-empty but lacks both markers is
classified NotFound. -/
theorem C9_found_identification_invariants (t : Transport) (s : List Char) :
    ((probe_dcs_port t).fst = .normal (some s) →
      s ≠ []
      ∧ pyStrip s = s
      ∧ (∀ c, s.head? = some c → isPySpace c = false)
      ∧ (∀ c, s.getLast? = some c → isPySpace c = false)
      ∧ (containsSub sorensenMarker (pyUpper s) = true
         ∨ containsSub dcsMarker (pyUpper s) = true))
    ∧ (∀ bs, t = ⟨none, none, .normal bs⟩ →
        pyStrip (utf8DecodeIgnore bs) ≠ [] →
        containsSub sorensenMarker (pyUpper (pyStrip (utf8DecodeIgnore bs)))
          = false →
        containsSub dcsMarker (pyUpper (pyStrip (utf8DecodeIgnore bs)))
          = false →
        (probe_dcs_port t).fst = .normal none) := by
  constructor
  · intro hfound
    obtain ⟨o, w, r⟩ := t
    cases o with
    | some e =>
      exact absurd hfound (by
        cases e <;>
          simp [probe_dcs_port, probe_try_body, caughtBySpecificClause,
            caughtByGeneralClause])
    | none =>
      cases w with
      | some e =>
        exact absurd hfound (by
          cases e <;>
            simp [probe_dcs_port, probe_try_body, caughtBySpecificClause,
              caughtByGeneralClause])
      | none =>
        cases r with
        | raised e =>
          exact absurd hfound (by
            cases e <;>
              simp [probe_dcs_port, probe_try_body, caughtBySpecificClause,
                caughtByGeneralClause])
        | normal bs =>
          by_cases h : looksLikeDCS (pyStrip (utf8DecodeIgnore bs))
          · have hs : s = pyStrip (utf8DecodeIgnore bs) := by
              have := hfound
              simp [probe_dcs_port, probe_try_body, h] at this
              exact this.symm
            subst hs
            have hmark := h
            unfold looksLikeDCS at hmark
            simp only [Bool.and_eq_true, Bool.or_eq_true,
              Bool.not_eq_true'] at hmark
            refine ⟨?_, pyStrip_idem _, pyStrip_head_not_space _,
              pyStrip_last_not_space _, hmark.2⟩
            intro hnil
            rw [hnil] at hmark
            exact absurd hmark.1 (by decide)
          · exact absurd hfound
              (by simp [probe_dcs_port, probe_try_body, h])
  · rintro bs rfl hne h1 h2
    have h : looksLikeDCS (pyStrip (utf8DecodeIgnore bs)) = false := by
      unfold looksLikeDCS
      simp [h1, h2]
    simp [probe_dcs_port, probe_try_body, h]

/-- C9 witness: the theorem at the canonical identification line. -/
theorem C9_found_identification_invariants_witness :
    idnResponseChars ≠ []
    ∧ pyStrip idnResponseChars = idnResponseChars
    ∧ (∀ c, idnResponseChars.head? = some c → isPySpace c = false)
    ∧ (∀ c, idnResponseChars.getLast? = some c → isPySpace c = false)
    ∧ (containsSub sorensenMarker (pyUpper idnResponseChars) = true
       ∨ containsSub dcsMarker (pyUpper idnResponseChars) = true) :=
  (C9_found_identification_invariants
    ⟨none, none, .normal idnResponseBytes⟩ idnResponseChars).1 (by decide)

/-- C10: a disconnected controller answers every operation with
`None`/`False` without a single driver call; a raising driver constructor
makes `connect` return `False` and leaves the controller disconnected; and
a driver whose calls raise makes every operation return `None`/`False` —
the exception is caught, never propagated. -/
theorem C10_controller_guards_and_catches :
    (∀ c : DCSController, is_connected c = false →
      get_measurements c = (none, 0)
      ∧ (∀ v, set_voltage c v = (false, 0))
      ∧ (∀ i, set_current c i = (false, 0))
      ∧ get_model c = (none, 0)
      ∧ get_serial_number c = (none, 0)
      ∧ get_max_voltage c = (none, 0)
      ∧ get_max_current c = (none, 0))
    ∧ (∀ (c : DCSController) (e : PyExc),
        (connect c (.raised e)).snd = false
        ∧ is_connected (connect c (.raised e)).fst = false)
    ∧ (∀ e : PyExc,
        get_measurements ⟨some (raisingDriver e), true⟩ = (none, 1)
        ∧ (∀ v, set_voltage ⟨some (raisingDriver e), true⟩ v = (false, 1))
        ∧ (∀ i, set_current ⟨some (raisingDriver e), true⟩ i = (false, 1))
        ∧ get_model ⟨some (raisingDriver e), true⟩ = (none, 1)
        ∧ get_serial_number ⟨some (raisingDriver e), true⟩ = (none, 1)
        ∧ get_max_voltage ⟨some (raisingDriver e), true⟩ = (none, 1)
        ∧ get_max_current ⟨some (raisingDriver e), true⟩ = (none, 1)) := by
  refine ⟨?_, ?_, ?_⟩
  · intro c h
    refine ⟨?_, fun v => ?_, fun i => ?_, ?_, ?_, ?_, ?_⟩ <;>
      simp [get_measurements, set_voltage, set_current, get_model,
        get_serial_number, get_max_voltage, get_max_current, h]
  · intro c e
    exact ⟨rfl, by simp [connect, is_connected]⟩
  · intro e
    exact ⟨rfl, fun v => rfl, fun i => rfl, rfl, rfl, rfl, rfl⟩

/-- C10 witness: the theorem at a freshly constructed (disconnected)
controller and at a raising constructor. -/
theorem C10_controller_guards_and_catches_witness :
    get_measurements ⟨none, false⟩ = (none, 0)
    ∧ set_voltage ⟨none, false⟩ 5 = (false, 0)
    ∧ is_connected (connect ⟨none, false⟩ (.raised .otherException)).fst
        = false :=
  ⟨(C10_controller_guards_and_catches.1 ⟨none, false⟩ rfl).1,
   (C10_controller_guards_and_catches.1 ⟨none, false⟩ rfl).2.1 5,
   (C10_controller_guards_and_catches.2.1 ⟨none, false⟩ .otherException).2⟩

end SorensenGui
